import Mathlib

/-!
Verification development for the client-side DTLS handshake state machine
(`DtlsSocket`) and the reliable-packet acknowledgement engine
(`PacketAcknowledgementPromise`) of this repository.

The socket's mutable fields become a `Model` structure; each handler method
becomes a function `Model → Model` (or `Model → Option Model` where the
source can throw).  External collaborators (wire codecs, X25519, RSA
verification, secret expansion, the AEAD record-protection context) are
out of scope in the source and are passed in as an `Ext` record of opaque
functions; every theorem below is universally quantified over `Ext`.
Byte buffers are `List Nat`; outbound records are kept structurally (one
`DtlsRecord` per record, one `List DtlsRecord` per transport write) since
the record codec itself is external.
-/

namespace Autil

/-- HandshakeState enum of the source, same constructors, same ordering. -/
inductive HandshakeState
  | Initializing
  | ExpectingServerHello
  | ExpectingCertificate
  | ExpectingServerKeyExchange
  | ExpectingServerHelloDone
  | ExpectingChangeCipherSpec
deriving DecidableEq, Repr

/-- Names used by the source's log interpolation `HandshakeState[...]`. -/
def HandshakeState.name : HandshakeState → String
  | .Initializing => "Initializing"
  | .ExpectingServerHello => "ExpectingServerHello"
  | .ExpectingCertificate => "ExpectingCertificate"
  | .ExpectingServerKeyExchange => "ExpectingServerKeyExchange"
  | .ExpectingServerHelloDone => "ExpectingServerHelloDone"
  | .ExpectingChangeCipherSpec => "ExpectingChangeCipherSpec"

/-- Record content types of the DTLS record layer. -/
inductive ContentType
  | ChangeCipherSpec
  | Alert
  | Handshake
  | ApplicationData
deriving DecidableEq, Repr

/-- Handshake message types used by the source. -/
inductive HandshakeType
  | ClientHello
  | ServerHello
  | HelloVerifyRequest
  | Certificate
  | ServerKeyExchange
  | ServerHelloDone
  | ClientKeyExchange
  | Finished
deriving DecidableEq, Repr

/-- Names used by the source's log interpolation `HandshakeType[...]`. -/
def HandshakeType.name : HandshakeType → String
  | .ClientHello => "ClientHello"
  | .ServerHello => "ServerHello"
  | .HelloVerifyRequest => "HelloVerifyRequest"
  | .Certificate => "Certificate"
  | .ServerKeyExchange => "ServerKeyExchange"
  | .ServerHelloDone => "ServerHelloDone"
  | .ClientKeyExchange => "ClientKeyExchange"
  | .Finished => "Finished"

/-- CipherSuite.TLS_NULL_WITH_NULL_NULL codepoint. -/
def TLS_NULL_WITH_NULL_NULL : Nat := 0x0000

/-- CipherSuite.TLS_ECDHE_RSA_WITH_AES_128_GCM_SHA256 codepoint. -/
def TLS_ECDHE_RSA_WITH_AES_128_GCM_SHA256 : Nat := 0xC02F

/-- ProtocolVersion.Obfuscated: an external codepoint, abstracted to a fixed
constant (its numeric value is never inspected by the core). -/
def ProtocolVersionObfuscated : Nat := 0

/-- Aes128GcmRecordProtection: kept as its three constructor arguments
(master secret, server random, client random); the cipher itself is external. -/
structure RecordProtection where
  masterSecret : List Nat
  serverRandom : List Nat
  clientRandom : List Nat
deriving DecidableEq, Repr

/-- A parsed peer certificate: the only field the core reads is whether a
usable RSA public key is present; the key itself is an opaque token. -/
structure Certificate where
  publicKey : Option Nat
deriving DecidableEq, Repr

/-- Fields of a deserialized ServerKeyExchange message read by the core. -/
structure ServerKeyExchange where
  curveType : Nat
  selectedCurve : Nat
  hashAlgorithm : Nat
  signatureAlgorithm : Nat
  key : List Nat
  signature : List Nat
deriving DecidableEq, Repr

/-- One ClientHello extension (type 10 carries the supported-curve list). -/
structure Extension where
  extensionType : Nat
  data : List Nat
deriving DecidableEq, Repr

/-- Constructor arguments of an outbound ClientHello message. -/
structure ClientHello where
  protocolVersion : Nat
  random : List Nat
  sessionInfo : Nat
  cookie : List Nat
  cipherSuites : List Nat
  compressionMethods : List Nat
  extensions : List Extension
deriving DecidableEq, Repr

/-- Structured content of an outbound handshake-message payload buffer.
`rawBytes` is a buffer handed over verbatim (the Finished placeholder);
the other constructors are typed messages whose byte serialization is an
external codec (`Ext.serializeOut`). -/
inductive OutContent
  | clientHello (ch : ClientHello)
  | clientKeyExchange (key : List Nat)
  | rawBytes (bytes : List Nat)
deriving DecidableEq, Repr

/-- An outbound handshake message as built by `HandshakeReader.fromHandshake
(type, messageSequence, fragmentOffset, fragmentLength, buffer)`. -/
structure HandshakeMessageOut where
  handshakeType : HandshakeType
  messageSequence : Nat
  fragmentOffset : Nat
  fragmentLength : Nat
  content : OutContent
deriving DecidableEq, Repr

/-- Payload of an outbound DTLS record: either a concatenation of serialized
handshake messages or raw bytes (the ChangeCipherSpec body). -/
inductive RecordPayload
  | handshakeMessages (msgs : List HandshakeMessageOut)
  | rawBytes (bytes : List Nat)
deriving DecidableEq, Repr

/-- An outbound DTLS record as built by `DtlsRecordReader.fromRecord`. -/
structure DtlsRecord where
  contentType : ContentType
  protocolVersion : Nat
  epoch : Nat
  sequenceNumber : Nat
  payload : RecordPayload
deriving DecidableEq, Repr

/-- The external collaborators (crypto primitives and wire codecs) that the
source imports; the core treats all of them as black boxes. -/
structure Ext where
  scalarMult : List Nat → List Nat → List Nat
  scalarMultBase : List Nat → List Nat
  sha256 : List Nat → List Nat
  rsaVerify : Nat → List Nat → List Nat → Bool
  expandSecret : List Nat → List Nat → List Nat → List Nat
  encryptClientPlaintext : RecordProtection → DtlsRecord → DtlsRecord
  deserializeCertificate : List Nat → Certificate
  serializeClientHello : ClientHello → List Nat
  serializeClientKeyExchange : List Nat → List Nat
  serializeServerKeyExchange : ServerKeyExchange → List Nat

/-- Byte serialization of an outbound handshake payload buffer. -/
def Ext.serializeOut (ext : Ext) : OutContent → List Nat
  | .clientHello ch => ext.serializeClientHello ch
  | .clientKeyExchange k => ext.serializeClientKeyExchange k
  | .rawBytes b => b

/-- EpochState of the source, field for field. -/
structure EpochState where
  epoch : Nat
  state : HandshakeState
  clientRandom : List Nat
  serverRandom : List Nat
  selectedCipherSuite : Nat
  cookie : List Nat
  handshake : Bool
  serverCertificate : Option Certificate
  recordProtection : Option RecordProtection
  masterSecret : List Nat
  serverVerification : List Nat
  certificateFragments : Option (List Nat)
  certificateFragmentDataRecv : Nat
  certificatePayload : List Nat
deriving DecidableEq, Repr

/-- The mutable fields of `DtlsSocket`, plus observation logs: `sends` lists
the `socket.send` calls (each transport write is the list of records whose
serializations it concatenates), `deserializedCerts` the buffers passed to
`Certificate.deserialize`, `disconnects` the `emitDisconnect` reasons, and
`log` the `console.log` lines. -/
structure Model where
  protocolVersion : Nat
  epoch : Nat
  sequenceNumber : Nat
  handshakeSequence : Nat
  epochState : EpochState
  messagesBuffer : List DtlsRecord
  sends : List (List DtlsRecord)
  deserializedCerts : List (List Nat)
  disconnects : List String
  log : List String
deriving DecidableEq, Repr

/-- Append a console.log line. -/
def Model.pushLog (st : Model) (s : String) : Model :=
  { st with log := st.log ++ [s] }

/-- The fresh EpochState built by `resetConnectionState`; `Random.generate()`
is modelled by passing the generated bytes in, `Random.NULL` is 32 zero
bytes, and the empty ArrayBuffers are empty lists. -/
def resetEpochState (newRandom : List Nat) : EpochState where
  epoch := 1
  state := .Initializing
  clientRandom := newRandom
  serverRandom := List.replicate 32 0
  selectedCipherSuite := TLS_NULL_WITH_NULL_NULL
  cookie := []
  handshake := false
  serverCertificate := none
  recordProtection := none
  masterSecret := []
  serverVerification := []
  certificateFragments := none
  certificateFragmentDataRecv := 0
  certificatePayload := []

/-- `resetConnectionState`: replaces the epoch state wholesale; the
connection counters (`epoch`, `sequenceNumber`, `handshakeSequence`) are
untouched, exactly as in the source. -/
def resetConnectionState (newRandom : List Nat) (st : Model) : Model :=
  { st with epochState := resetEpochState newRandom }

/-- The socket immediately after construction: `epoch = 0`,
`sequenceNumber = 1`, `handshakeSequence = 0`, then `resetConnectionState`. -/
def Model.init (newRandom : List Nat) : Model where
  protocolVersion := ProtocolVersionObfuscated
  epoch := 0
  sequenceNumber := 1
  handshakeSequence := 0
  epochState := resetEpochState newRandom
  messagesBuffer := []
  sends := []
  deserializedCerts := []
  disconnects := []
  log := []

/-- `emitDisconnect`: every registered disconnect handler is invoked with the
reason; observed as an append to `disconnects`. -/
def emitDisconnect (reason : String) (st : Model) : Model :=
  { st with disconnects := st.disconnects ++ [reason] }

/-- `sendDtlsMessage`: wraps a payload in one record at the current epoch and
record sequence number (post-incrementing the latter), pushes it onto
`messagesBuffer` and performs one `socket.send`. -/
def sendDtlsMessage (ct : ContentType) (payload : RecordPayload) (st : Model) : Model :=
  let r : DtlsRecord := ⟨ct, st.protocolVersion, st.epoch, st.sequenceNumber, payload⟩
  { st with
    sequenceNumber := st.sequenceNumber + 1
    messagesBuffer := st.messagesBuffer ++ [r]
    sends := st.sends ++ [[r]] }

/-- The loop body of `sendHandshakeMessage`: each message is serialized and
wrapped by `fromHandshake (type, handshakeSequence++, 0, buf.byteLength, buf)`. -/
def buildHandshakeMessages (ext : Ext) (msgs : List (HandshakeType × OutContent))
    (startSeq : Nat) : List HandshakeMessageOut × Nat :=
  msgs.foldl
    (fun acc m =>
      (acc.1 ++ [⟨m.1, acc.2, 0, (ext.serializeOut m.2).length, m.2⟩], acc.2 + 1))
    ([], startSeq)

/-- `sendHandshakeMessage`: concatenates the wrapped handshake messages into
one Handshake record and sends it. -/
def sendHandshakeMessage (ext : Ext) (msgs : List (HandshakeType × OutContent))
    (st : Model) : Model :=
  let built := buildHandshakeMessages ext msgs st.handshakeSequence
  sendDtlsMessage .Handshake (.handshakeMessages built.1)
    { st with handshakeSequence := built.2 }

/-- The ClientHello the source constructs in `sendClientHello`: protocol
version, client random, `HazelDtlsSessionInfo(1)`, the stored cookie, the
single supported suite, null compression, and the extension advertising
curve 0x001d (the extension body's codec is external; the curve list is kept
structurally). -/
def defaultClientHello (st : Model) : ClientHello where
  protocolVersion := st.protocolVersion
  random := st.epochState.clientRandom
  sessionInfo := 1
  cookie := st.epochState.cookie
  cipherSuites := [TLS_ECDHE_RSA_WITH_AES_128_GCM_SHA256]
  compressionMethods := [0x00]
  extensions := [⟨10, [0x001d]⟩]

/-- `sendClientHello`: one handshake message in one record; a
non-retransmission additionally moves the state to `ExpectingServerHello`. -/
def sendClientHello (ext : Ext) (retransmitting : Bool) (st : Model) : Model :=
  let st2 := sendHandshakeMessage ext
    [(.ClientHello, .clientHello (defaultClientHello st))] st
  if retransmitting then st2
  else { st2 with epochState := { st2.epochState with state := .ExpectingServerHello } }

/-- `handleHelloVerifyRequest`: guarded on `ExpectingServerHello`; a cookie
byte-identical to the stored one is dropped as a duplicate; otherwise the
cookie is stored and a fresh ClientHello is sent (not as a retransmission). -/
def handleHelloVerifyRequest (ext : Ext) (cookie : List Nat) (st : Model) : Model :=
  if st.epochState.state ≠ HandshakeState.ExpectingServerHello then
    st.pushLog ("Dropping unexpected HelloVerifyRequest handshake message. State("
      ++ st.epochState.state.name ++ ")")
  else if st.epochState.cookie = cookie then
    st.pushLog "Dropping duplicate HelloVerifyRequest handshake message"
  else
    sendClientHello ext false
      { st with epochState := { st.epochState with cookie := cookie } }

/-- `handleServerHello`: guarded on `ExpectingServerHello`.  A supported
suite initializes the key-agreement helper; an unsupported one only logs —
the source then falls through unconditionally, storing the offered suite,
moving to `ExpectingCertificate` and clearing the reassembly state in both
cases (there is no early return in the unsupported branch). -/
def handleServerHello (cipherSuite : Nat) (st : Model) : Model :=
  if st.epochState.state ≠ HandshakeState.ExpectingServerHello then
    st.pushLog ("Dropping unexpected ServerHello handshake message. State("
      ++ st.epochState.state.name ++ ")")
  else
    let st2 :=
      if cipherSuite = TLS_ECDHE_RSA_WITH_AES_128_GCM_SHA256 then
        { st with epochState := { st.epochState with handshake := true } }
      else
        st.pushLog "Dropping malformed ServerHello message. Unsupported CiperSuite"
    { st2 with epochState := { st2.epochState with
        selectedCipherSuite := cipherSuite
        state := HandshakeState.ExpectingCertificate
        certificateFragments := none
        certificateFragmentDataRecv := 0
        certificatePayload := [] } }

/-- `handleCertificate`: a certificate without a usable public key is dropped
as malformed (keeping the source's typo in the log line); otherwise it is
stored and the state advances.  No handshake-state guard exists here. -/
def handleCertificate (cert : Certificate) (st : Model) : Model :=
  if cert.publicKey = none then
    st.pushLog "Dropping malfomed Certificate message: Certificate is not RSA signed"
  else
    { st with epochState := { st.epochState with
        serverCertificate := some cert
        state := HandshakeState.ExpectingServerKeyExchange } }

/-- The label bytes of `expandSecret`, ASCII "master secert" (the source
keeps this upstream typo intentionally). -/
def masterSecertLabel : List Nat :=
  [109, 97, 115, 116, 101, 114, 32, 115, 101, 99, 101, 114, 116]

/-- `handleServerKeyExchange`: the four parameter checks in source order,
then the certificate-presence check, then RSASSA-PKCS1-v1.5 verification of
the SHA-256 digest of the first `4 + key.length` serialized bytes; on
success X25519 key agreement (the scalar is the client random, as in the
source), master-secret expansion seeded with client random ++ server
random, record-protection construction when the negotiated suite is the
supported one (otherwise drop), then state and master secret are stored.
`none` models the TypeError thrown when a stored certificate had no public
key (unreachable through `handleCertificate`). -/
def handleServerKeyExchange (ext : Ext) (ske : ServerKeyExchange) (st : Model) :
    Option Model :=
  if ske.curveType ≠ 0x03 then some (st.pushLog "Unsupported curve type")
  else if ske.selectedCurve ≠ 0x001d then some (st.pushLog "Unsupported selected curve")
  else if ske.hashAlgorithm ≠ 0x04 then some (st.pushLog "Unsupported hash algorithm")
  else if ske.signatureAlgorithm ≠ 0x01 then
    some (st.pushLog "Unsupported signature algorithm")
  else
    match st.epochState.serverCertificate with
    | none => some (st.pushLog "state error: missing public key")
    | some cert =>
      match cert.publicKey with
      | none => none
      | some pk =>
        let keyAndParameters :=
          (ext.serializeServerKeyExchange ske).take (4 + ske.key.length)
        let digest := ext.sha256 keyAndParameters
        if ext.rsaVerify pk digest ske.signature = false then
          some (st.pushLog "signature failure")
        else
          let res := ext.scalarMult st.epochState.clientRandom ske.key
          let randomSeed := st.epochState.clientRandom ++ st.epochState.serverRandom
          let masterSecret := ext.expandSecret res masterSecertLabel randomSeed
          if st.epochState.selectedCipherSuite = TLS_ECDHE_RSA_WITH_AES_128_GCM_SHA256 then
            some { st with epochState := { st.epochState with
                recordProtection :=
                  some ⟨masterSecret, st.epochState.serverRandom, st.epochState.clientRandom⟩
                state := HandshakeState.ExpectingServerHelloDone
                masterSecret := masterSecret } }
          else
            some (st.pushLog "Unsupported cipher suite")

/-- The ClientKeyExchange message of the final flight:
`fromHandshake (type, handshakeSequence, 0, buf.byteLength, buf)` where the
carried key is `scalarMultBase(clientRandom)`. -/
def flightClientKeyExchangeMessage (ext : Ext) (st : Model) : HandshakeMessageOut :=
  ⟨HandshakeType.ClientKeyExchange, st.handshakeSequence, 0,
    (ext.serializeClientKeyExchange (ext.scalarMultBase st.epochState.clientRandom)).length,
    OutContent.clientKeyExchange (ext.scalarMultBase st.epochState.clientRandom)⟩

/-- The Finished message of the final flight: declared fragment length 0,
payload buffer the single byte 1, handed over raw (no codec call). -/
def flightFinishedMessage (st : Model) : HandshakeMessageOut :=
  ⟨HandshakeType.Finished, st.handshakeSequence + 1, 0, 0, OutContent.rawBytes [1]⟩

/-- The three records of the final flight, in transmit order: plaintext
ClientKeyExchange at the pre-increment epoch and current sequence, the
single-byte ChangeCipherSpec at the pre-increment epoch and next sequence,
and the Finished record at the incremented epoch with the sequence counter
reset to 1, encrypted by the record-protection context. -/
def flightRecords (ext : Ext) (rp : RecordProtection) (st : Model) : List DtlsRecord :=
  [⟨ContentType.Handshake, st.protocolVersion, st.epoch, st.sequenceNumber,
      RecordPayload.handshakeMessages [flightClientKeyExchangeMessage ext st]⟩,
   ⟨ContentType.ChangeCipherSpec, st.protocolVersion, st.epoch, st.sequenceNumber + 1,
      RecordPayload.rawBytes [1]⟩,
   ext.encryptClientPlaintext rp
     ⟨ContentType.Handshake, st.protocolVersion, st.epoch + 1, 1,
       RecordPayload.handshakeMessages [flightFinishedMessage st]⟩]

/-- `sendClientKeyExchangeFlight`: serializes the three records, concatenates
them into one writer and performs exactly one `socket.send` (bypassing
`sendDtlsMessage`, so `messagesBuffer` is untouched).  Counter bookkeeping:
two record sequence numbers are consumed pre-increment, `incrementEpoch`
bumps the epoch and resets the sequence to 1, the Finished record consumes
it, leaving 2; two handshake sequence numbers are consumed.  `none` models
the TypeError of `recordProtection!` when no context exists. -/
def sendClientKeyExchangeFlight (ext : Ext) (st : Model) : Option Model :=
  match st.epochState.recordProtection with
  | none => none
  | some rp =>
    some { st with
      epoch := st.epoch + 1
      sequenceNumber := 2
      handshakeSequence := st.handshakeSequence + 2
      sends := st.sends ++ [flightRecords ext rp st] }

/-- `handleServerHelloDone`: guarded on `ExpectingServerHelloDone`; moves to
`ExpectingChangeCipherSpec` and emits the final flight. -/
def handleServerHelloDone (ext : Ext) (st : Model) : Option Model :=
  if st.epochState.state ≠ HandshakeState.ExpectingServerHelloDone then
    some (st.pushLog "invalid state")
  else
    sendClientKeyExchangeFlight ext
      { st with epochState := { st.epochState with
          state := HandshakeState.ExpectingChangeCipherSpec } }

/-- Payload of one inbound handshake message, pre-parsed (deserialization of
the typed messages is an external codec); Certificate messages stay raw
because the fragment path works on their bytes. -/
inductive InBody
  | helloVerifyRequest (cookie : List Nat)
  | serverHello (cipherSuite : Nat)
  | certificate (fragmentOffset : Nat) (fullLength : Nat) (bytes : List Nat)
  | serverKeyExchange (ske : ServerKeyExchange)
  | serverHelloDone
  | otherType (t : HandshakeType)
deriving DecidableEq, Repr

/-- The handshake type tag of an inbound message body. -/
def InBody.handshakeType : InBody → HandshakeType
  | .helloVerifyRequest _ => .HelloVerifyRequest
  | .serverHello _ => .ServerHello
  | .certificate _ _ _ => .Certificate
  | .serverKeyExchange _ => .ServerKeyExchange
  | .serverHelloDone => .ServerHelloDone
  | .otherType t => t

/-- One inbound handshake message: its header sequence number and body. -/
structure InHandshake where
  messageSequence : Nat
  body : InBody
deriving DecidableEq, Repr

/-- Record a call to `Certificate.deserialize` on the given buffer. -/
def recordDeserializedCert (bytes : List Nat) (st : Model) : Model :=
  { st with deserializedCerts := st.deserializedCerts ++ [bytes] }

/-- `Uint8Array.set(data, off)` on a buffer: in-place overwrite at the given
offset; `none` models the RangeError thrown when the data does not fit. -/
def writeAt (buf : List Nat) (off : Nat) (data : List Nat) : Option (List Nat) :=
  if off + data.length ≤ buf.length then
    some (buf.take off ++ data ++ buf.drop (off + data.length))
  else none

/-- `handleHandshake`: logs, overwrites the connection-wide
`handshakeSequence` with the inbound message's sequence number, then
dispatches on the message type.  The Certificate arm deserializes
immediately when the declared full length equals the bytes present;
otherwise it allocates the reassembly buffer on first fragment (sized to
this message's declared full length, zero-filled), copies the fragment at
its declared offset, accumulates the received-byte counter, and on reaching
the declared full length deserializes the buffer and clears buffer and
counter. -/
def handleHandshake (ext : Ext) (m : InHandshake) (st0 : Model) : Option Model :=
  let st1 := st0.pushLog ("DTLS Handshake (" ++ m.body.handshakeType.name ++ ")")
  let st := { st1 with handshakeSequence := m.messageSequence }
  match m.body with
  | .helloVerifyRequest cookie => some (handleHelloVerifyRequest ext cookie st)
  | .serverHello suite => some (handleServerHello suite st)
  | .certificate off full bytes =>
    if full = bytes.length then
      some (handleCertificate (ext.deserializeCertificate bytes)
        (recordDeserializedCert bytes st))
    else
      let buf := st.epochState.certificateFragments.getD (List.replicate full 0)
      match writeAt buf off bytes with
      | none => none
      | some buf2 =>
        let recv := st.epochState.certificateFragmentDataRecv + bytes.length
        let st2 := { st with epochState := { st.epochState with
            certificateFragments := some buf2
            certificateFragmentDataRecv := recv } }
        if recv = full then
          let st3 := handleCertificate (ext.deserializeCertificate buf2)
            (recordDeserializedCert buf2 st2)
          some { st3 with epochState := { st3.epochState with
              certificateFragments := none
              certificateFragmentDataRecv := 0 } }
        else
          some st2
  | .serverKeyExchange ske => handleServerKeyExchange ext ske st
  | .serverHelloDone => handleServerHelloDone ext st
  | .otherType _ => some st

/-- One inbound DTLS record, pre-parsed by the external record codec: an
alert (with its fatal flag and text), a Handshake record carrying one or
more concatenated handshake messages, or another content type. -/
inductive InRecord
  | alert (isFatal : Bool) (text : String)
  | handshake (msgs : List InHandshake)
  | changeCipherSpec (bytes : List Nat)
  | applicationData (bytes : List Nat)
deriving DecidableEq, Repr

/-- Content-type name used by the record-level log line. -/
def InRecord.contentTypeName : InRecord → String
  | .alert _ _ => "Alert"
  | .handshake _ => "Handshake"
  | .changeCipherSpec _ => "ChangeCipherSpec"
  | .applicationData _ => "ApplicationData"

/-- `handleMessage`: a fatal alert reports connection failure and stops; a
non-fatal alert is logged; a Handshake record dispatches each carried
message in order until the record is exhausted; other content types are
ignored. -/
def handleMessage (ext : Ext) (r : InRecord) (st0 : Model) : Option Model :=
  let st := st0.pushLog ("DTLS Record (" ++ r.contentTypeName ++ ")")
  match r with
  | .alert isFatal text =>
    if isFatal then some (emitDisconnect ("DTLS Alert: " ++ text) st)
    else some (st.pushLog text)
  | .handshake msgs => msgs.foldlM (fun s m => handleHandshake ext m s) st
  | .changeCipherSpec _ => some st
  | .applicationData _ => some st

/-- Deliver a list of inbound records in order. -/
def run (ext : Ext) (records : List InRecord) (st : Model) : Option Model :=
  records.foldlM (fun s r => handleMessage ext r s) st

/-- `_connect` of the source: resets the connection state, sends the
ClientHello, and then awaits `new Promise(r => ...)` whose executor never
invokes the resolver — the returned promise never settles, so only the side
effects up to that point are observable. -/
def connectAttempt (ext : Ext) (newRandom : List Nat) (st : Model) : Model :=
  sendClientHello ext false (resetConnectionState newRandom st)

/-- Settlement status of the promise returned by `connect`: its executor
races `_connect().then(res, rej)` against `addDisconnectHandler(rej)`.
Since `_connect`'s promise never settles, the caller's promise settles only
when a disconnect handler fires, with the first reason winning. -/
inductive ConnectOutcome
  | pending
  | rejected (reason : String)
deriving DecidableEq, Repr

/-- Outcome of the pending `connect` call after the observed events. -/
def connectOutcome (st : Model) : ConnectOutcome :=
  match st.disconnects with
  | [] => ConnectOutcome.pending
  | r :: _ => ConnectOutcome.rejected r

end Autil

namespace Hazel

/-- Retransmission interval of the acknowledgement engine in time units; one
`tick` below is one elapse of this interval. -/
def retryInterval : Nat := 2000

/-- Attempt budget the timer callback checks before declaring a drop. -/
def maxSendCount : Nat := 10

/-- Observable state of one `PacketAcknowledgementPromise`: the attempt
counter, whether the interval timer is armed, the number of `client.write`
transmissions, how many times the success / failure continuation sets were
fired (each firing runs every currently registered continuation once), and
the number of `clearInterval` calls. -/
structure AckState where
  sendCount : Nat
  timerArmed : Bool
  writes : Nat
  resolveFires : Nat
  rejectFires : Nat
  cleanups : Nat
deriving DecidableEq, Repr

/-- `attemptSend`: increments the attempt counter and writes the packet. -/
def attemptSend (s : AckState) : AckState :=
  { s with sendCount := s.sendCount + 1, writes := s.writes + 1 }

/-- `cleanup`: `clearInterval(this.timeout)`. -/
def cleanup (s : AckState) : AckState :=
  { s with timerArmed := false, cleanups := s.cleanups + 1 }

/-- `setResolved`: cleanup, then fire every registered success continuation. -/
def setResolved (s : AckState) : AckState :=
  let s2 := cleanup s
  { s2 with resolveFires := s2.resolveFires + 1 }

/-- `setDropped`: cleanup, then fire every registered failure continuation
with the "Packet was not acked" condition. -/
def setDropped (s : AckState) : AckState :=
  let s2 := cleanup s
  { s2 with rejectFires := s2.rejectFires + 1 }

/-- The constructor body: arm the interval timer, then perform the first
transmission attempt immediately. -/
def construct : AckState :=
  attemptSend
    { sendCount := 0, timerArmed := true, writes := 0
      resolveFires := 0, rejectFires := 0, cleanups := 0 }

/-- One elapse of the interval: the callback runs only while the timer is
armed; it drops once the attempt counter has reached the budget, otherwise
it performs another transmission attempt. -/
def tick (s : AckState) : AckState :=
  if s.timerArmed = false then s
  else if s.sendCount = maxSendCount then setDropped s
  else attemptSend s

/-- `n` successive elapses of the interval. -/
def ticks : Nat → AckState → AckState
  | 0, s => s
  | n + 1, s => ticks n (tick s)

end Hazel

namespace Autil

/-- A concrete instantiation of the external collaborators, used to evaluate
the model at concrete inputs (signature verification accepts, encryption is
the identity, deserialized certificates carry public-key token 1). -/
def extD : Ext where
  scalarMult := fun a b => a ++ b
  scalarMultBase := fun a => 0 :: a
  sha256 := fun a => 1 :: a
  rsaVerify := fun _ _ _ => true
  expandSecret := fun a b c => a ++ b ++ c
  encryptClientPlaintext := fun _ r => r
  deserializeCertificate := fun _ => ⟨some 1⟩
  serializeClientHello := fun ch => ch.cookie
  serializeClientKeyExchange := fun k => k
  serializeServerKeyExchange := fun s => s.key ++ s.key

/-- A concrete generated client random. -/
def rA : List Nat := List.replicate 32 7

/-- The socket right after construction. -/
def sock0 : Model := Model.init rA

/-- The socket after `_connect` ran its observable prefix (reset + first
ClientHello); the state is `ExpectingServerHello`. -/
def st0 : Model := connectAttempt extD rA sock0

/-- Raw bytes of a concrete full Certificate message. -/
def certBytes : List Nat := List.replicate 10 5

/-- A concrete ServerKeyExchange passing all four parameter checks. -/
def sampleSKE : ServerKeyExchange :=
  ⟨3, 29, 4, 1, List.replicate 32 9, List.replicate 16 2⟩

/-- The inbound records of a successful handshake after the first
ClientHello: ServerHello with the supported suite, a full Certificate, a
valid ServerKeyExchange, then ServerHelloDone. -/
def goodTrace : List InRecord :=
  [InRecord.handshake [⟨0, InBody.serverHello TLS_ECDHE_RSA_WITH_AES_128_GCM_SHA256⟩],
   InRecord.handshake [⟨1, InBody.certificate 0 10 certBytes⟩],
   InRecord.handshake [⟨2, InBody.serverKeyExchange sampleSKE⟩],
   InRecord.handshake [⟨3, InBody.serverHelloDone⟩]]

/-- The successful trace cut just before ServerHelloDone. -/
def preTrace : List InRecord := goodTrace.take 3

end Autil

namespace Autil

/-- The state reached after the first ClientHello and the ServerHello /
Certificate / ServerKeyExchange exchanges of the successful trace. -/
def stMid : Model := (run extD preTrace st0).getD sock0

/-- The record-protection context held in `stMid`. -/
def rpMid : RecordProtection := stMid.epochState.recordProtection.getD ⟨[], [], []⟩

/-- C1 (amended): when ServerHelloDone arrives in `ExpectingServerHelloDone`
with a record-protection context present, the state becomes
`ExpectingChangeCipherSpec` and exactly one outbound transport write is
produced, whose payload is the concatenation, in order, of the plaintext
ClientKeyExchange record at the pre-increment epoch, the ChangeCipherSpec
record with single-byte payload 1 at the pre-increment epoch, and the
Finished record at the post-increment epoch encrypted with the
record-protection context; the epoch increments by one (from its initial
value 0 to 1 on a first connection attempt, not from 1 to 2) and the record
sequence number resets to its initial value 1 (the Finished record consumes
sequence 1, leaving the counter at 2); nothing else changes. -/
theorem c1_serverHelloDone_flight (ext : Ext) (st : Model) (rp : RecordProtection)
    (hstate : st.epochState.state = HandshakeState.ExpectingServerHelloDone)
    (hrp : st.epochState.recordProtection = some rp) :
    handleServerHelloDone ext st = some
      { st with
        epochState := { st.epochState with state := HandshakeState.ExpectingChangeCipherSpec }
        epoch := st.epoch + 1
        sequenceNumber := 2
        handshakeSequence := st.handshakeSequence + 2
        sends := st.sends ++ [flightRecords ext rp st] } := by
  simp [handleServerHelloDone, hstate, sendClientKeyExchangeFlight, hrp, flightRecords,
    flightClientKeyExchangeMessage, flightFinishedMessage]

/-- C1 witness: the flight theorem applied to the concretely reached
pre-flight state of the successful trace. -/
theorem c1_witness :
    stMid.epochState.state = HandshakeState.ExpectingServerHelloDone
    ∧ stMid.epochState.recordProtection = some rpMid
    ∧ handleServerHelloDone extD stMid = some
      { stMid with
        epochState := { stMid.epochState with state := HandshakeState.ExpectingChangeCipherSpec }
        epoch := stMid.epoch + 1
        sequenceNumber := 2
        handshakeSequence := stMid.handshakeSequence + 2
        sends := stMid.sends ++ [flightRecords extD rpMid stMid] } :=
  ⟨by decide, by decide,
    c1_serverHelloDone_flight extD stMid rpMid (by decide) (by decide)⟩

/-- C1 counterexample: on the successful trace the epoch at the moment
ServerHelloDone is processed is 0, and after the flight it is 1, not 2 —
the claim's "epoch increments from 1 to 2" is false on the code. -/
theorem c1_counterexample :
    (run extD preTrace st0).map (fun s => (s.epochState.state, s.epoch))
      = some (HandshakeState.ExpectingServerHelloDone, 0)
    ∧ (run extD goodTrace st0).map Model.epoch = some 1
    ∧ ¬ (run extD goodTrace st0).map Model.epoch = some 2 := by
  refine ⟨by decide, by decide, by decide⟩

/-- C2 (code defect, evaluated at the failing input): in
`ExpectingServerHello`, a supported suite sets the key-agreement helper and
moves to `ExpectingCertificate` as claimed; but an unsupported suite (53),
despite logging "Dropping malformed ServerHello message. Unsupported
CiperSuite", still stores the unsupported suite and still moves the state
to `ExpectingCertificate`, leaving the helper uninitialized — the claim's
"logged and dropped and the state machine is left unchanged" is violated
(the `else` branch of the source only logs and falls through). -/
theorem c2_serverHello_failing_input :
    st0.epochState.state = HandshakeState.ExpectingServerHello
    ∧ (handleServerHello TLS_ECDHE_RSA_WITH_AES_128_GCM_SHA256 st0).epochState.state
        = HandshakeState.ExpectingCertificate
    ∧ (handleServerHello TLS_ECDHE_RSA_WITH_AES_128_GCM_SHA256 st0).epochState.handshake = true
    ∧ (handleServerHello 53 st0).epochState.state = HandshakeState.ExpectingCertificate
    ∧ (handleServerHello 53 st0).epochState.selectedCipherSuite = 53
    ∧ (handleServerHello 53 st0).epochState.handshake = false
    ∧ "Dropping malformed ServerHello message. Unsupported CiperSuite"
        ∈ (handleServerHello 53 st0).log := by
  refine ⟨by decide, by decide, by decide, by decide, by decide, by decide, by decide⟩

/-- C3 (code defect, evaluated at the failing input): after the entire
successful handshake (final flight emitted, state
`ExpectingChangeCipherSpec`, two transport writes), the promise returned by
`connect` is still pending — `_connect` awaits a promise whose executor
never calls the resolver, so handshake completion never resolves the
caller; only a fatal alert settles (rejects) it. -/
theorem c3_connect_pending_after_handshake :
    (run extD goodTrace st0).map (fun s => s.epochState.state)
      = some HandshakeState.ExpectingChangeCipherSpec
    ∧ (run extD goodTrace st0).map (fun s => s.sends.length) = some 2
    ∧ (run extD goodTrace st0).map connectOutcome = some ConnectOutcome.pending
    ∧ (run extD (goodTrace ++ [InRecord.alert true "handshake failure"]) st0).map connectOutcome
        = some (ConnectOutcome.rejected "DTLS Alert: handshake failure") := by
  refine ⟨by decide, by decide, by decide, by decide⟩

/-- The second component of the `sendHandshakeMessage` fold: each wrapped
message post-increments the handshake sequence once. -/
theorem buildHandshakeMessages_seq (ext : Ext) (msgs : List (HandshakeType × OutContent)) :
    ∀ acc : List HandshakeMessageOut × Nat,
      (msgs.foldl
        (fun acc m =>
          (acc.1 ++ [⟨m.1, acc.2, 0, (ext.serializeOut m.2).length, m.2⟩], acc.2 + 1))
        acc).2 = acc.2 + msgs.length := by
  induction msgs with
  | nil => intro acc; simp
  | cons m rest ih => intro acc; simp [List.foldl_cons, ih]; omega

/-- C8 (amended): every handshake message transmitted increments the
connection-wide handshake sequence number by one; however, processing an
inbound handshake message overwrites that counter with the inbound
message's own sequence number (`this.handshakeSequence =
message.getMessageSequence()`), so it can decrease while inbound messages
are being processed. -/
theorem c8_handshakeSequence (ext : Ext) (msgs : List (HandshakeType × OutContent))
    (st : Model) (n : Nat) (t : HandshakeType) :
    (sendHandshakeMessage ext msgs st).handshakeSequence
        = st.handshakeSequence + msgs.length
    ∧ (handleHandshake ext ⟨n, InBody.otherType t⟩ st).map Model.handshakeSequence = some n := by
  constructor
  · simp [sendHandshakeMessage, sendDtlsMessage, buildHandshakeMessages,
      buildHandshakeMessages_seq]
  · simp [handleHandshake]

/-- C8 counterexample: after the first ClientHello the connection-wide
handshake sequence number is 1; processing an inbound ServerHelloDone
carrying message sequence 0 — which is dropped as "invalid state" — leaves
the counter at 0: it decreased during inbound processing, refuting "never
decreases, including while inbound handshake messages are being
processed". -/
theorem c8_counterexample :
    st0.handshakeSequence = 1
    ∧ (handleHandshake extD ⟨0, InBody.serverHelloDone⟩ st0).map Model.handshakeSequence
        = some 0 := by
  refine ⟨by decide, by decide⟩

/-- Every handshake message wrapped by the `sendHandshakeMessage` fold
declares a fragment length equal to its serialized payload's byte length. -/
theorem buildHandshakeMessages_fragLen (ext : Ext) (msgs : List (HandshakeType × OutContent)) :
    ∀ acc : List HandshakeMessageOut × Nat,
      (∀ mo ∈ acc.1, mo.fragmentLength = (ext.serializeOut mo.content).length) →
      ∀ mo ∈ (msgs.foldl
        (fun acc m =>
          (acc.1 ++ [⟨m.1, acc.2, 0, (ext.serializeOut m.2).length, m.2⟩], acc.2 + 1))
        acc).1, mo.fragmentLength = (ext.serializeOut mo.content).length := by
  induction msgs with
  | nil => intro acc h; simpa using h
  | cons m rest ih =>
    intro acc h
    apply ih
    intro mo hmo
    rcases List.mem_append.1 hmo with h1 | h1
    · exact h mo h1
    · rcases List.mem_singleton.1 h1 with rfl
      rfl

/-- C10: the Finished message of the final flight is built with declared
fragment length 0 while its payload buffer is the single byte 1 (length 1),
and it is exactly the handshake message carried by the flight's third,
encrypted record; every other outbound handshake message — the flight's
ClientKeyExchange and everything wrapped by `sendHandshakeMessage` —
declares a fragment length equal to its payload's byte length. -/
theorem c10_finished_fragment_length (ext : Ext) (st : Model) (rp : RecordProtection)
    (msgs : List (HandshakeType × OutContent))
    (hrp : st.epochState.recordProtection = some rp) :
    (flightFinishedMessage st).fragmentLength = 0
    ∧ (ext.serializeOut (flightFinishedMessage st).content).length = 1
    ∧ (flightFinishedMessage st).content = OutContent.rawBytes [1]
    ∧ (flightRecords ext rp st).getLast? = some (ext.encryptClientPlaintext rp
        ⟨ContentType.Handshake, st.protocolVersion, st.epoch + 1, 1,
          RecordPayload.handshakeMessages [flightFinishedMessage st]⟩)
    ∧ sendClientKeyExchangeFlight ext st = some { st with
        epoch := st.epoch + 1
        sequenceNumber := 2
        handshakeSequence := st.handshakeSequence + 2
        sends := st.sends ++ [flightRecords ext rp st] }
    ∧ (flightClientKeyExchangeMessage ext st).fragmentLength
        = (ext.serializeOut (flightClientKeyExchangeMessage ext st).content).length
    ∧ (∀ mo ∈ (buildHandshakeMessages ext msgs st.handshakeSequence).1,
        mo.fragmentLength = (ext.serializeOut mo.content).length) := by
  refine ⟨rfl, rfl, rfl, ?_, ?_, rfl, ?_⟩
  · simp [flightRecords]
  · simp [sendClientKeyExchangeFlight, hrp]
  · exact buildHandshakeMessages_fragLen ext msgs ([], st.handshakeSequence)
      (by intro mo h; simp at h)

/-- C10 witness: the fragment-length theorem at the concrete pre-flight
state with one ClientHello in the `sendHandshakeMessage` batch. -/
theorem c10_witness :
    stMid.epochState.recordProtection = some rpMid
    ∧ ((flightFinishedMessage stMid).fragmentLength = 0
      ∧ (extD.serializeOut (flightFinishedMessage stMid).content).length = 1
      ∧ (flightFinishedMessage stMid).content = OutContent.rawBytes [1]
      ∧ (flightRecords extD rpMid stMid).getLast? = some (extD.encryptClientPlaintext rpMid
          ⟨ContentType.Handshake, stMid.protocolVersion, stMid.epoch + 1, 1,
            RecordPayload.handshakeMessages [flightFinishedMessage stMid]⟩)
      ∧ sendClientKeyExchangeFlight extD stMid = some { stMid with
          epoch := stMid.epoch + 1
          sequenceNumber := 2
          handshakeSequence := stMid.handshakeSequence + 2
          sends := stMid.sends ++ [flightRecords extD rpMid stMid] }
      ∧ (flightClientKeyExchangeMessage extD stMid).fragmentLength
          = (extD.serializeOut (flightClientKeyExchangeMessage extD stMid).content).length
      ∧ (∀ mo ∈ (buildHandshakeMessages extD
            [(HandshakeType.ClientHello, OutContent.clientHello (defaultClientHello stMid))]
            stMid.handshakeSequence).1,
          mo.fragmentLength = (extD.serializeOut mo.content).length)) :=
  ⟨by decide,
    c10_finished_fragment_length extD stMid rpMid
      [(HandshakeType.ClientHello, OutContent.clientHello (defaultClientHello stMid))]
      (by decide)⟩

end Autil

namespace Autil

/-- The ClientHello that `handleHelloVerifyRequest` re-sends after storing a
new cookie: `defaultClientHello` of the cookie-updated socket. -/
def helloAfterCookie (st : Model) (cookie : List Nat) : ClientHello :=
  defaultClientHello { st with epochState := { st.epochState with cookie := cookie } }

/-- C6: in `ExpectingServerHello`, a HelloVerifyRequest whose cookie is
byte-identical to the stored cookie is dropped as a duplicate (only a log
line is appended, in particular no transmission); a different cookie is
stored and triggers exactly one transmission — a single record carrying a
single ClientHello handshake message whose cookie field is the new cookie —
and the state remains `ExpectingServerHello` in both cases. -/
theorem c6_helloVerifyRequest (ext : Ext) (cookie : List Nat) (st : Model)
    (hstate : st.epochState.state = HandshakeState.ExpectingServerHello) :
    (st.epochState.cookie = cookie →
      handleHelloVerifyRequest ext cookie st
        = st.pushLog "Dropping duplicate HelloVerifyRequest handshake message")
    ∧ (st.epochState.cookie ≠ cookie →
      (handleHelloVerifyRequest ext cookie st).sends
        = st.sends ++ [[⟨ContentType.Handshake, st.protocolVersion, st.epoch,
            st.sequenceNumber, RecordPayload.handshakeMessages
              [⟨HandshakeType.ClientHello, st.handshakeSequence, 0,
                (ext.serializeClientHello (helloAfterCookie st cookie)).length,
                OutContent.clientHello (helloAfterCookie st cookie)⟩]⟩]]
      ∧ (helloAfterCookie st cookie).cookie = cookie
      ∧ (handleHelloVerifyRequest ext cookie st).epochState.cookie = cookie
      ∧ (handleHelloVerifyRequest ext cookie st).epochState.state
          = HandshakeState.ExpectingServerHello) := by
  constructor
  · intro hdup
    simp [handleHelloVerifyRequest, hstate, hdup]
  · intro hnew
    refine ⟨?_, rfl, ?_, ?_⟩ <;>
      simp [handleHelloVerifyRequest, hstate, hnew, sendClientHello,
        sendHandshakeMessage, buildHandshakeMessages, sendDtlsMessage,
        helloAfterCookie, defaultClientHello, Ext.serializeOut]

/-- C6 witness: the theorem applied at the post-ClientHello socket, once
with the stored (empty) cookie and once with the fresh cookie 0xAB. -/
theorem c6_witness :
    st0.epochState.state = HandshakeState.ExpectingServerHello
    ∧ ((st0.epochState.cookie = [] →
        handleHelloVerifyRequest extD [] st0
          = st0.pushLog "Dropping duplicate HelloVerifyRequest handshake message")
      ∧ (st0.epochState.cookie ≠ [] →
        (handleHelloVerifyRequest extD [] st0).sends
          = st0.sends ++ [[⟨ContentType.Handshake, st0.protocolVersion, st0.epoch,
              st0.sequenceNumber, RecordPayload.handshakeMessages
                [⟨HandshakeType.ClientHello, st0.handshakeSequence, 0,
                  (extD.serializeClientHello (helloAfterCookie st0 [])).length,
                  OutContent.clientHello (helloAfterCookie st0 [])⟩]⟩]]
        ∧ (helloAfterCookie st0 []).cookie = []
        ∧ (handleHelloVerifyRequest extD [] st0).epochState.cookie = []
        ∧ (handleHelloVerifyRequest extD [] st0).epochState.state
            = HandshakeState.ExpectingServerHello))
    ∧ ((st0.epochState.cookie = [171] →
        handleHelloVerifyRequest extD [171] st0
          = st0.pushLog "Dropping duplicate HelloVerifyRequest handshake message")
      ∧ (st0.epochState.cookie ≠ [171] →
        (handleHelloVerifyRequest extD [171] st0).sends
          = st0.sends ++ [[⟨ContentType.Handshake, st0.protocolVersion, st0.epoch,
              st0.sequenceNumber, RecordPayload.handshakeMessages
                [⟨HandshakeType.ClientHello, st0.handshakeSequence, 0,
                  (extD.serializeClientHello (helloAfterCookie st0 [171])).length,
                  OutContent.clientHello (helloAfterCookie st0 [171])⟩]⟩]]
        ∧ (helloAfterCookie st0 [171]).cookie = [171]
        ∧ (handleHelloVerifyRequest extD [171] st0).epochState.cookie = [171]
        ∧ (handleHelloVerifyRequest extD [171] st0).epochState.state
            = HandshakeState.ExpectingServerHello)) :=
  ⟨by decide, c6_helloVerifyRequest extD [] st0 (by decide),
    c6_helloVerifyRequest extD [171] st0 (by decide)⟩

/-- The four ServerKeyExchange parameter checks, in source order: named
curve, x25519, SHA-256, RSA. -/
def skeFieldsValid (ske : ServerKeyExchange) : Prop :=
  ske.curveType = 0x03 ∧ ske.selectedCurve = 0x001d
    ∧ ske.hashAlgorithm = 0x04 ∧ ske.signatureAlgorithm = 0x01

instance (ske : ServerKeyExchange) : Decidable (skeFieldsValid ske) := by
  unfold skeFieldsValid; infer_instance

/-- RSASSA-PKCS1-v1.5 verification over the SHA-256 digest of the signed
region (the first `4 + key.length` serialized bytes), as the source does. -/
def skeSignatureValid (ext : Ext) (pk : Nat) (ske : ServerKeyExchange) : Bool :=
  ext.rsaVerify pk
    (ext.sha256 ((ext.serializeServerKeyExchange ske).take (4 + ske.key.length)))
    ske.signature

/-- The master secret the source derives: label-based secret expansion of
the X25519 shared secret, seeded with client random then server random. -/
def derivedMasterSecret (ext : Ext) (es : EpochState) (ske : ServerKeyExchange) : List Nat :=
  ext.expandSecret (ext.scalarMult es.clientRandom ske.key) masterSecertLabel
    (es.clientRandom ++ es.serverRandom)

/-- C4 (amended): for a ServerKeyExchange received with a server certificate
stored — (i) any failure of the four ordered parameter checks is logged and
dropped with no change to the epoch state; (ii) signature-verification
failure likewise; (iii) when all checks pass AND the negotiated cipher
suite is the supported AEAD suite, the master secret is derived by
label-based expansion seeded with client random ++ server random, the
record-protection context is built from it and both randoms, the master
secret is stored and the state becomes `ExpectingServerHelloDone`;
(iv) when all checks pass but the negotiated suite differs (reachable,
because `handleServerHello` stores unsupported suites), the message is
dropped with no change to the epoch state — the claim's unconditional
success path is false without the suite condition. -/
theorem c4_serverKeyExchange (ext : Ext) (ske : ServerKeyExchange) (st : Model)
    (cert : Certificate) (pk : Nat)
    (hcert : st.epochState.serverCertificate = some cert)
    (hpk : cert.publicKey = some pk) :
    (¬ skeFieldsValid ske →
      (handleServerKeyExchange ext ske st).map Model.epochState = some st.epochState
      ∧ (handleServerKeyExchange ext ske st).map Model.sends = some st.sends)
    ∧ (skeFieldsValid ske → skeSignatureValid ext pk ske = false →
      (handleServerKeyExchange ext ske st).map Model.epochState = some st.epochState
      ∧ (handleServerKeyExchange ext ske st).map Model.sends = some st.sends)
    ∧ (skeFieldsValid ske → skeSignatureValid ext pk ske = true →
      st.epochState.selectedCipherSuite = TLS_ECDHE_RSA_WITH_AES_128_GCM_SHA256 →
      handleServerKeyExchange ext ske st = some { st with
        epochState := { st.epochState with
          recordProtection := some ⟨derivedMasterSecret ext st.epochState ske,
            st.epochState.serverRandom, st.epochState.clientRandom⟩
          state := HandshakeState.ExpectingServerHelloDone
          masterSecret := derivedMasterSecret ext st.epochState ske } })
    ∧ (skeFieldsValid ske → skeSignatureValid ext pk ske = true →
      st.epochState.selectedCipherSuite ≠ TLS_ECDHE_RSA_WITH_AES_128_GCM_SHA256 →
      (handleServerKeyExchange ext ske st).map Model.epochState = some st.epochState
      ∧ (handleServerKeyExchange ext ske st).map Model.sends = some st.sends) := by
  refine ⟨?_, ?_, ?_, ?_⟩
  · intro hnv
    by_cases h1 : ske.curveType = 0x03
    · by_cases h2 : ske.selectedCurve = 0x001d
      · by_cases h3 : ske.hashAlgorithm = 0x04
        · by_cases h4 : ske.signatureAlgorithm = 0x01
          · exact absurd ⟨h1, h2, h3, h4⟩ hnv
          · simp [handleServerKeyExchange, h1, h2, h3, h4, Model.pushLog]
        · simp [handleServerKeyExchange, h1, h2, h3, Model.pushLog]
      · simp [handleServerKeyExchange, h1, h2, Model.pushLog]
    · simp [handleServerKeyExchange, h1, Model.pushLog]
  · rintro ⟨h1, h2, h3, h4⟩ hsf
    rw [skeSignatureValid] at hsf
    simp [handleServerKeyExchange, h1, h2, h3, h4, hcert, hpk, hsf, Model.pushLog]
  · rintro ⟨h1, h2, h3, h4⟩ hsv hsuite
    rw [skeSignatureValid] at hsv
    simp [handleServerKeyExchange, h1, h2, h3, h4, hcert, hpk, hsv, hsuite,
      derivedMasterSecret, Model.pushLog]
  · rintro ⟨h1, h2, h3, h4⟩ hsv hsuite
    rw [skeSignatureValid] at hsv
    simp [handleServerKeyExchange, h1, h2, h3, h4, hcert, hpk, hsv, hsuite, Model.pushLog]

end Autil

namespace Autil

/-- The state after ServerHello (supported suite) and a full Certificate:
`ExpectingServerKeyExchange` with the certificate stored. -/
def stCert : Model := (run extD (goodTrace.take 2) st0).getD sock0

/-- The concrete certificate `extD.deserializeCertificate` yields. -/
def certD : Certificate := ⟨some 1⟩

/-- C4 witness: the ServerKeyExchange theorem applied at the concretely
reached post-Certificate state with the concrete sample message. -/
theorem c4_witness :
    stCert.epochState.serverCertificate = some certD
    ∧ certD.publicKey = some 1
    ∧ ((¬ skeFieldsValid sampleSKE →
        (handleServerKeyExchange extD sampleSKE stCert).map Model.epochState
            = some stCert.epochState
        ∧ (handleServerKeyExchange extD sampleSKE stCert).map Model.sends
            = some stCert.sends)
      ∧ (skeFieldsValid sampleSKE → skeSignatureValid extD 1 sampleSKE = false →
        (handleServerKeyExchange extD sampleSKE stCert).map Model.epochState
            = some stCert.epochState
        ∧ (handleServerKeyExchange extD sampleSKE stCert).map Model.sends
            = some stCert.sends)
      ∧ (skeFieldsValid sampleSKE → skeSignatureValid extD 1 sampleSKE = true →
        stCert.epochState.selectedCipherSuite = TLS_ECDHE_RSA_WITH_AES_128_GCM_SHA256 →
        handleServerKeyExchange extD sampleSKE stCert = some { stCert with
          epochState := { stCert.epochState with
            recordProtection := some ⟨derivedMasterSecret extD stCert.epochState sampleSKE,
              stCert.epochState.serverRandom, stCert.epochState.clientRandom⟩
            state := HandshakeState.ExpectingServerHelloDone
            masterSecret := derivedMasterSecret extD stCert.epochState sampleSKE } })
      ∧ (skeFieldsValid sampleSKE → skeSignatureValid extD 1 sampleSKE = true →
        stCert.epochState.selectedCipherSuite ≠ TLS_ECDHE_RSA_WITH_AES_128_GCM_SHA256 →
        (handleServerKeyExchange extD sampleSKE stCert).map Model.epochState
            = some stCert.epochState
        ∧ (handleServerKeyExchange extD sampleSKE stCert).map Model.sends
            = some stCert.sends)) :=
  ⟨by decide, by decide,
    c4_serverKeyExchange extD sampleSKE stCert certD 1 (by decide) (by decide)⟩

/-- A trace whose ServerHello offers an unsupported suite (0xC02B), which
the defective `handleServerHello` nevertheless stores, followed by a full
Certificate and the valid sample ServerKeyExchange. -/
def badSuiteTrace : List InRecord :=
  [InRecord.handshake [⟨0, InBody.serverHello 49195⟩],
   InRecord.handshake [⟨1, InBody.certificate 0 10 certBytes⟩],
   InRecord.handshake [⟨2, InBody.serverKeyExchange sampleSKE⟩]]

/-- C4 counterexample: a concrete ServerKeyExchange received after a server
certificate has been stored, with all four parameter checks and the
signature verification passing — yet, because the negotiated suite is not
the supported one, no record-protection context is constructed, no master
secret is stored, and the state does not transition to
`ExpectingServerHelloDone`: the claim's unconditional success path is false
on the code. -/
theorem c4_counterexample :
    skeFieldsValid sampleSKE
    ∧ skeSignatureValid extD 1 sampleSKE = true
    ∧ (run extD (badSuiteTrace.take 2) st0).map
        (fun s => (s.epochState.state, s.epochState.serverCertificate))
        = some (HandshakeState.ExpectingServerKeyExchange, some certD)
    ∧ (run extD badSuiteTrace st0).map
        (fun s => (s.epochState.state, s.epochState.recordProtection,
          s.epochState.masterSecret))
        = some (HandshakeState.ExpectingServerKeyExchange, none, [])
    ∧ ¬ (run extD badSuiteTrace st0).map (fun s => s.epochState.state)
        = some HandshakeState.ExpectingServerHelloDone := by
  refine ⟨by decide, by decide, by decide, by decide, by decide⟩

end Autil

namespace Hazel

/-- Iterating `ticks` splits over addition. -/
theorem ticks_add (a b : Nat) (s : AckState) : ticks (a + b) s = ticks b (ticks a s) := by
  induction a generalizing s with
  | zero => rw [Nat.zero_add]; rfl
  | succ a ih =>
    have : a + 1 + b = (a + b) + 1 := by omega
    rw [this]
    show ticks (a + b) (tick s) = ticks b (ticks (a + 1) s)
    rw [ih (tick s)]
    rfl

/-- A state fixed by `tick` is fixed by any number of ticks. -/
theorem ticks_fixed (s : AckState) (h : tick s = s) : ∀ n, ticks n s = s := by
  intro n
  induction n with
  | zero => rfl
  | succ n ih =>
    show ticks n (tick s) = s
    rw [h, ih]

/-- Once the interval timer is disarmed, the callback never runs again. -/
theorem tick_disarmed (s : AckState) (h : s.timerArmed = false) : tick s = s := by
  simp [tick, h]

/-- C7: the engine performs attempt 1 immediately at construction; absent
resolution, tick k (for k ≤ 9, one tick per 2000-time-unit interval)
leaves it at attempt k+1 with the timer still armed and nothing fired;
any run of at least 10 ticks ends, and stays, in the dropped state —
attempt 10 was the last transmission, the failure continuations fired
exactly once with the not-acknowledged condition, and the timer was
disarmed exactly once; resolving after j ≤ 9 ticks fires the success
continuations exactly once, disarms the timer exactly once, and no further
transmission attempt ever happens no matter how many intervals elapse. -/
theorem c7_ackEngine (k n j m : Nat) (hk : k ≤ 9) (hn : 10 ≤ n) (hj : j ≤ 9) :
    (construct.sendCount = 1 ∧ construct.writes = 1 ∧ construct.timerArmed = true
      ∧ construct.resolveFires = 0 ∧ construct.rejectFires = 0 ∧ construct.cleanups = 0)
    ∧ ticks k construct = ⟨k + 1, true, k + 1, 0, 0, 0⟩
    ∧ ticks n construct = ⟨10, false, 10, 0, 1, 1⟩
    ∧ ticks m (setResolved (ticks j construct)) = ⟨j + 1, false, j + 1, 1, 0, 1⟩ := by
  refine ⟨by decide, ?_, ?_, ?_⟩
  · interval_cases k <;> decide
  · obtain ⟨d, rfl⟩ : ∃ d, n = 10 + d := ⟨n - 10, by omega⟩
    rw [ticks_add]
    have h10 : ticks 10 construct = ⟨10, false, 10, 0, 1, 1⟩ := by decide
    rw [h10]
    exact ticks_fixed _ (by decide) d
  · have hrun : ticks j construct = ⟨j + 1, true, j + 1, 0, 0, 0⟩ := by
      interval_cases j <;> decide
    rw [hrun]
    have hset : setResolved (⟨j + 1, true, j + 1, 0, 0, 0⟩ : AckState)
        = ⟨j + 1, false, j + 1, 1, 0, 1⟩ := by
      simp [setResolved, cleanup]
    rw [hset]
    exact ticks_fixed _ (tick_disarmed _ rfl) m

/-- C7 witness: the engine theorem at 4 unresolved ticks, a 15-tick
unresolved run, and a resolution after 3 ticks followed by 5 more ticks. -/
theorem c7_witness :
    4 ≤ 9 ∧ 10 ≤ 15 ∧ 3 ≤ 9
    ∧ ((construct.sendCount = 1 ∧ construct.writes = 1 ∧ construct.timerArmed = true
        ∧ construct.resolveFires = 0 ∧ construct.rejectFires = 0 ∧ construct.cleanups = 0)
      ∧ ticks 4 construct = ⟨4 + 1, true, 4 + 1, 0, 0, 0⟩
      ∧ ticks 15 construct = ⟨10, false, 10, 0, 1, 1⟩
      ∧ ticks 5 (setResolved (ticks 3 construct)) = ⟨3 + 1, false, 3 + 1, 1, 0, 1⟩) :=
  ⟨by decide, by decide, by decide,
    c7_ackEngine 4 15 3 5 (by decide) (by decide) (by decide)⟩

end Hazel

namespace Autil

/-- One certificate fragment as delivered to `handleHandshake`: its header
message sequence, its declared fragment offset, and its payload bytes. -/
structure Frag where
  messageSeq : Nat
  off : Nat
  bytes : List Nat
deriving DecidableEq, Repr

/-- The inbound handshake message carrying a fragment, for a declared total
certificate length `full`. -/
def fragMsg (full : Nat) (f : Frag) : InHandshake :=
  ⟨f.messageSeq, InBody.certificate f.off full f.bytes⟩

/-- Deliver a list of certificate fragments, in order, through the real
handshake dispatch. -/
def deliverFrags (ext : Ext) (full : Nat) (frags : List Frag) (st : Model) : Option Model :=
  frags.foldlM (fun s f => handleHandshake ext (fragMsg full f) s) st

/-- Two fragments occupy non-overlapping byte ranges. -/
def FragDisjoint (a b : Frag) : Prop :=
  a.off + a.bytes.length ≤ b.off ∨ b.off + b.bytes.length ≤ a.off

instance (a b : Frag) : Decidable (FragDisjoint a b) := by
  unfold FragDisjoint; infer_instance

/-- Whether byte position `i` falls inside fragment `f`'s range. -/
def fragContains (f : Frag) (i : Nat) : Bool :=
  decide (f.off ≤ i) && decide (i < f.off + f.bytes.length)

/-- The fragment of the list covering byte position `i`, if any. -/
def fragAt (frags : List Frag) (i : Nat) : Option Frag :=
  frags.find? (fun f => fragContains f i)

/-- Pure reassembly: fold the offset-addressed writes over a buffer. -/
def assembleFrom (buf : List Nat) (frags : List Frag) : Option (List Nat) :=
  frags.foldlM (fun b f => writeAt b f.off f.bytes) buf

/-- An in-bounds `writeAt` succeeds and preserves the buffer length. -/
theorem writeAt_length (buf : List Nat) (off : Nat) (data : List Nat) (r : List Nat)
    (h : writeAt buf off data = some r) : r.length = buf.length := by
  unfold writeAt at h
  split at h
  case isTrue hb =>
    injection h with h2
    subst h2
    simp only [List.length_append, List.length_take, List.length_drop]
    omega
  case isFalse => exact absurd h (by simp)

/-- Pointwise description of an in-bounds `writeAt`: inside the written
range the data byte appears (shifted by the offset), elsewhere the original
buffer byte. -/
theorem writeAt_getD (buf : List Nat) (off : Nat) (data : List Nat) (r : List Nat)
    (h : writeAt buf off data = some r) (i : Nat) :
    r.getD i 0 = if off ≤ i ∧ i < off + data.length then data.getD (i - off) 0
      else buf.getD i 0 := by
  unfold writeAt at h
  split at h
  case isFalse => exact absurd h (by simp)
  case isTrue hb =>
    injection h with h2
    subst h2
    have hlen1 : (buf.take off).length = off := by
      rw [List.length_take]; omega
    rcases Nat.lt_or_ge i off with hi | hi
    · rw [if_neg (by omega)]
      rw [List.getD_eq_getElem?_getD, List.getD_eq_getElem?_getD]
      rw [List.getElem?_append, if_pos (by rw [List.length_append, hlen1]; omega)]
      rw [List.getElem?_append, if_pos (by rw [hlen1]; omega)]
      rw [List.getElem?_take, if_pos hi]
    · rcases Nat.lt_or_ge i (off + data.length) with hi2 | hi2
      · rw [if_pos ⟨hi, hi2⟩]
        rw [List.getD_eq_getElem?_getD, List.getD_eq_getElem?_getD]
        rw [List.getElem?_append, if_pos (by rw [List.length_append, hlen1]; omega)]
        rw [List.getElem?_append, if_neg (by rw [hlen1]; omega)]
        rw [hlen1]
      · rw [if_neg (by omega)]
        rw [List.getD_eq_getElem?_getD, List.getD_eq_getElem?_getD]
        rw [List.getElem?_append, if_neg (by rw [List.length_append, hlen1]; omega)]
        rw [List.length_append, hlen1, List.getElem?_drop]
        have hidx : off + data.length + (i - (off + data.length)) = i := by omega
        rw [hidx]

/-- A fragment disjoint from a fragment containing `i` does not contain `i`. -/
theorem not_contains_of_disjoint (a b : Frag) (i : Nat) (hd : FragDisjoint a b)
    (ha : fragContains a i = true) : ¬ fragContains b i = true := by
  unfold FragDisjoint at hd
  unfold fragContains at ha ⊢
  simp only [Bool.and_eq_true, decide_eq_true_eq] at ha ⊢
  omega

/-- Under pairwise disjointness, at most one fragment contains position `i`. -/
theorem contains_unique (frags : List Frag) (i : Nat)
    (hdisj : frags.Pairwise FragDisjoint) :
    ∀ a ∈ frags, ∀ b ∈ frags, fragContains a i = true → fragContains b i = true →
      a = b := by
  intro a ha b hb hpa hpb
  by_contra hne
  have hsym : Symmetric FragDisjoint := by
    intro x y hxy
    exact Or.symm hxy
  exact not_contains_of_disjoint a b i (hdisj.forall hsym ha hb hne) hpa hpb

/-- `find?` is permutation-invariant when at most one element satisfies the
predicate. -/
theorem find?_unique_perm {p : Frag → Bool} {l1 l2 : List Frag}
    (hperm : l1.Perm l2)
    (huniq : ∀ a ∈ l1, ∀ b ∈ l1, p a = true → p b = true → a = b) :
    l1.find? p = l2.find? p := by
  cases h1 : l1.find? p with
  | none =>
    have hall := List.find?_eq_none.1 h1
    exact (List.find?_eq_none.2 fun x hx => hall x (hperm.mem_iff.2 hx)).symm
  | some f =>
    have hf := List.find?_some h1
    have hfm := List.mem_of_find?_eq_some h1
    cases h2 : l2.find? p with
    | none =>
      exact absurd hf (List.find?_eq_none.1 h2 f (hperm.mem_iff.1 hfm))
    | some g =>
      have hg := List.find?_some h2
      have hgm := hperm.mem_iff.2 (List.mem_of_find?_eq_some h2)
      rw [huniq f hfm g hgm hf hg]

/-- The covering fragment at a position is the same for any permutation of a
pairwise-disjoint fragment list. -/
theorem fragAt_perm (frags1 frags2 : List Frag) (i : Nat) (hperm : frags1.Perm frags2)
    (hdisj : frags1.Pairwise FragDisjoint) : fragAt frags1 i = fragAt frags2 i :=
  find?_unique_perm hperm (contains_unique frags1 i hdisj)

end Autil

namespace Autil

/-- Pointwise description of pure reassembly: under pairwise disjointness,
the assembled buffer holds, at every position, the byte of the fragment
covering that position, and the original buffer byte elsewhere; the length
is preserved.  This description depends only on which fragment covers each
position, not on the delivery order. -/
theorem assembleFrom_spec (frags : List Frag) : ∀ (buf r : List Nat),
    (∀ f ∈ frags, f.off + f.bytes.length ≤ buf.length) →
    frags.Pairwise FragDisjoint →
    assembleFrom buf frags = some r →
    r.length = buf.length ∧
    ∀ i, r.getD i 0 = (match fragAt frags i with
      | some f => f.bytes.getD (i - f.off) 0
      | none => buf.getD i 0) := by
  induction frags with
  | nil =>
    intro buf r hbound hdisj hr
    have : buf = r := by simpa [assembleFrom] using hr
    subst this
    exact ⟨rfl, fun i => by simp [fragAt]⟩
  | cons f fs ih =>
    intro buf r hbound hdisj hr
    rw [assembleFrom, List.foldlM_cons] at hr
    cases hw : writeAt buf f.off f.bytes with
    | none => rw [hw] at hr; exact absurd hr (by simp)
    | some b1 =>
      rw [hw] at hr
      simp only [Option.bind_eq_bind, Option.some_bind] at hr
      have hb1len : b1.length = buf.length := writeAt_length buf f.off f.bytes b1 hw
      have hbound' : ∀ g ∈ fs, g.off + g.bytes.length ≤ b1.length := by
        intro g hg
        rw [hb1len]
        exact hbound g (List.mem_cons_of_mem f hg)
      have hdisj' : fs.Pairwise FragDisjoint := (List.pairwise_cons.1 hdisj).2
      have hhead : ∀ g ∈ fs, FragDisjoint f g := (List.pairwise_cons.1 hdisj).1
      obtain ⟨hrlen, hchar⟩ := ih b1 r hbound' hdisj' hr
      refine ⟨hrlen.trans hb1len, fun i => ?_⟩
      have hwp := writeAt_getD buf f.off f.bytes b1 hw i
      cases hc : fragContains f i with
      | true =>
        have hnone : fragAt fs i = none := by
          refine List.find?_eq_none.2 fun g hg => ?_
          exact not_contains_of_disjoint f g i (hhead g hg) hc
        have hfind : fragAt (f :: fs) i = some f := by
          rw [fragAt]
          exact List.find?_cons_of_pos fs hc
        have hcp : f.off ≤ i ∧ i < f.off + f.bytes.length := by
          have := hc
          unfold fragContains at this
          simpa [Bool.and_eq_true, decide_eq_true_eq] using this
        have h1 : r.getD i 0 = b1.getD i 0 := by rw [hchar i, hnone]
        rw [hfind, h1, hwp, if_pos hcp]
      | false =>
        have hfind : fragAt (f :: fs) i = fragAt fs i := by
          rw [fragAt, fragAt]
          exact List.find?_cons_of_neg fs (by simp [hc])
        have hcp : ¬ (f.off ≤ i ∧ i < f.off + f.bytes.length) := by
          have := hc
          unfold fragContains at this
          simpa [Bool.and_eq_true, decide_eq_true_eq] using this
        rw [hfind, hchar i]
        cases hfa : fragAt fs i with
        | some g => rfl
        | none =>
          rw [hwp, if_neg hcp]

/-- The epoch state after a completed reassembly: the effect of
`handleCertificate` on the deserialized buffer, followed by the clearing of
the reassembly buffer and counter. -/
def certCompleted (ext : Ext) (es : EpochState) (final : List Nat) : EpochState :=
  if (ext.deserializeCertificate final).publicKey = none then
    { es with certificateFragments := none, certificateFragmentDataRecv := 0 }
  else
    { es with
        serverCertificate := some (ext.deserializeCertificate final)
        state := HandshakeState.ExpectingServerKeyExchange
        certificateFragments := none
        certificateFragmentDataRecv := 0 }

/-- `certCompleted` ignores the previous reassembly fields. -/
theorem certCompleted_update (ext : Ext) (es : EpochState) (b : Option (List Nat))
    (n : Nat) (final : List Nat) :
    certCompleted ext
      { es with certificateFragments := b, certificateFragmentDataRecv := n } final
      = certCompleted ext es final := by
  by_cases hc : (ext.deserializeCertificate final).publicKey = none <;>
    simp [certCompleted, hc]

end Autil

namespace Autil

/-- One fragment through the real dispatch: a proper fragment (shorter than
the declared total length) takes the reassembly path; if the accumulated
counter stays short of the total it only stores the updated buffer and
counter, and when the counter reaches the total it deserializes the
completed buffer exactly once and clears the reassembly fields. -/
theorem handleFrag_step (ext : Ext) (L : Nat) (f : Frag) (st : Model) (buf buf2 : List Nat)
    (hlen : f.bytes.length < L)
    (hbuf : st.epochState.certificateFragments.getD (List.replicate L 0) = buf)
    (hw : writeAt buf f.off f.bytes = some buf2) :
    (st.epochState.certificateFragmentDataRecv + f.bytes.length ≠ L →
      handleHandshake ext (fragMsg L f) st = some { st with
        log := st.log ++ ["DTLS Handshake (Certificate)"]
        handshakeSequence := f.messageSeq
        epochState := { st.epochState with
          certificateFragments := some buf2
          certificateFragmentDataRecv :=
            st.epochState.certificateFragmentDataRecv + f.bytes.length } })
    ∧ (st.epochState.certificateFragmentDataRecv + f.bytes.length = L →
      (handleHandshake ext (fragMsg L f) st).map Model.epochState
          = some (certCompleted ext st.epochState buf2)
      ∧ (handleHandshake ext (fragMsg L f) st).map Model.deserializedCerts
          = some (st.deserializedCerts ++ [buf2])
      ∧ (handleHandshake ext (fragMsg L f) st).map Model.sends = some st.sends) := by
  have hLne : ¬ L = f.bytes.length := by omega
  constructor
  · intro hrecv
    simp [handleHandshake, fragMsg, InBody.handshakeType, HandshakeType.name,
      Model.pushLog, hLne, hbuf, hw, hrecv]
  · intro hrecv
    by_cases hpk : (ext.deserializeCertificate buf2).publicKey = none <;>
      refine ⟨?_, ?_, ?_⟩ <;>
        simp [handleHandshake, fragMsg, InBody.handshakeType, HandshakeType.name,
          Model.pushLog, hLne, hbuf, hw, hrecv, handleCertificate,
          recordDeserializedCert, certCompleted, hpk]

end Autil

namespace Autil

/-- Delivering proper, in-bounds fragments whose lengths sum exactly to the
declared total yields, through the real dispatch, exactly one certificate
deserialization — of the assembled buffer, at the moment the counter
reaches the total — after which the reassembly buffer and counter are
cleared; no transport write happens. -/
theorem deliverFrags_complete (ext : Ext) (L : Nat) (frags : List Frag) :
    ∀ (st : Model) (buf : List Nat),
    frags ≠ [] →
    (∀ f ∈ frags, 0 < f.bytes.length) →
    (∀ f ∈ frags, f.bytes.length < L) →
    (∀ f ∈ frags, f.off + f.bytes.length ≤ L) →
    st.epochState.certificateFragments.getD (List.replicate L 0) = buf →
    buf.length = L →
    st.epochState.certificateFragmentDataRecv
        + (frags.map (fun f => f.bytes.length)).sum = L →
    ∃ st' final,
      deliverFrags ext L frags st = some st'
      ∧ assembleFrom buf frags = some final
      ∧ st'.deserializedCerts = st.deserializedCerts ++ [final]
      ∧ st'.epochState = certCompleted ext st.epochState final
      ∧ st'.sends = st.sends := by
  induction frags with
  | nil => intro st buf hne; exact absurd rfl hne
  | cons f fs ih =>
    intro st buf hne hpos hlt hbound hbuf hbuflen hsum
    have hmem : f ∈ f :: fs := List.mem_cons_self f fs
    have hb : f.off + f.bytes.length ≤ buf.length := by
      rw [hbuflen]; exact hbound f hmem
    obtain ⟨buf2, hw⟩ : ∃ b2, writeAt buf f.off f.bytes = some b2 := by
      unfold writeAt
      rw [if_pos hb]
      exact ⟨_, rfl⟩
    have hstep := handleFrag_step ext L f st buf buf2 (hlt f hmem) hbuf hw
    rcases eq_or_ne fs [] with rfl | hfs
    · have hrecvL : st.epochState.certificateFragmentDataRecv + f.bytes.length = L := by
        simpa using hsum
      obtain ⟨hes, hdc, hsends⟩ := hstep.2 hrecvL
      cases hh : handleHandshake ext (fragMsg L f) st with
      | none => rw [hh] at hes; exact absurd hes (by simp)
      | some st3 =>
        rw [hh] at hes hdc hsends
        simp only [Option.map_some', Option.some.injEq] at hes hdc hsends
        refine ⟨st3, buf2, ?_, ?_, hdc, hes, hsends⟩
        · simp [deliverFrags, hh]
        · simp [assembleFrom, hw]
    · have hpos' : ∀ g ∈ fs, 0 < g.bytes.length :=
        fun g hg => hpos g (List.mem_cons_of_mem f hg)
      have hlt' : ∀ g ∈ fs, g.bytes.length < L :=
        fun g hg => hlt g (List.mem_cons_of_mem f hg)
      have hbound' : ∀ g ∈ fs, g.off + g.bytes.length ≤ L :=
        fun g hg => hbound g (List.mem_cons_of_mem f hg)
      have hsumpos : 0 < (fs.map (fun g => g.bytes.length)).sum := by
        apply List.sum_pos
        · intro x hx
          obtain ⟨g, hg, rfl⟩ := List.mem_map.1 hx
          exact hpos' g hg
        · intro hmapnil
          exact hfs (List.map_eq_nil_iff.1 hmapnil)
      have hsum' : st.epochState.certificateFragmentDataRecv + f.bytes.length
          + (fs.map (fun g => g.bytes.length)).sum = L := by
        simpa [Nat.add_assoc] using hsum
      have hrecv_ne : st.epochState.certificateFragmentDataRecv + f.bytes.length ≠ L := by
        omega
      have hh := hstep.1 hrecv_ne
      obtain ⟨st', final, hrun, hasm, hdc, hes, hsends⟩ :=
        ih { st with
              log := st.log ++ ["DTLS Handshake (Certificate)"]
              handshakeSequence := f.messageSeq
              epochState := { st.epochState with
                certificateFragments := some buf2
                certificateFragmentDataRecv :=
                  st.epochState.certificateFragmentDataRecv + f.bytes.length } }
          buf2 hfs hpos' hlt' hbound' (by simp)
          (by rw [writeAt_length buf f.off f.bytes buf2 hw]; exact hbuflen)
          (by simpa using hsum')
      refine ⟨st', final, ?_, ?_, ?_, ?_, ?_⟩
      · rw [deliverFrags, List.foldlM_cons, hh]
        simpa [deliverFrags] using hrun
      · rw [assembleFrom, List.foldlM_cons, hw]
        simpa [assembleFrom] using hasm
      · rw [hdc]
      · rw [hes, certCompleted_update]
      · rw [hsends]

end Autil

namespace Autil

/-- C5: certificate fragment reassembly is offset-addressed and
order-independent.  For any declared total length and any nonempty list of
proper, non-overlapping fragments covering it (positive lengths summing to
the total, each within bounds), delivering the fragments through the real
dispatch in any order succeeds, produces exactly one certificate
deserialization — of the same reassembled buffer, performed when the
received-byte counter reaches the declared total — leaves the epoch state
identical in both orders, and clears the reassembly buffer and counter back
to empty and zero. -/
theorem c5_reassembly (ext : Ext) (L : Nat) (frags frags2 : List Frag) (st : Model)
    (hclean : st.epochState.certificateFragments = none)
    (hzero : st.epochState.certificateFragmentDataRecv = 0)
    (hL : 0 < L)
    (hpos : ∀ f ∈ frags, 0 < f.bytes.length)
    (hlt : ∀ f ∈ frags, f.bytes.length < L)
    (hbound : ∀ f ∈ frags, f.off + f.bytes.length ≤ L)
    (hdisj : frags.Pairwise FragDisjoint)
    (hsum : (frags.map (fun f => f.bytes.length)).sum = L)
    (hperm : frags.Perm frags2) :
    ∃ st1 st2 final,
      deliverFrags ext L frags st = some st1
      ∧ deliverFrags ext L frags2 st = some st2
      ∧ st1.deserializedCerts = st.deserializedCerts ++ [final]
      ∧ st2.deserializedCerts = st.deserializedCerts ++ [final]
      ∧ st1.epochState = st2.epochState
      ∧ st1.epochState.certificateFragments = none
      ∧ st1.epochState.certificateFragmentDataRecv = 0
      ∧ st1.sends = st.sends
      ∧ final.length = L := by
  have hne : frags ≠ [] := by
    intro h
    subst h
    simp at hsum
    omega
  have hne2 : frags2 ≠ [] := by
    intro h
    subst h
    exact hne hperm.eq_nil
  have hpos2 : ∀ f ∈ frags2, 0 < f.bytes.length :=
    fun f hf => hpos f (hperm.mem_iff.2 hf)
  have hlt2 : ∀ f ∈ frags2, f.bytes.length < L :=
    fun f hf => hlt f (hperm.mem_iff.2 hf)
  have hbound2 : ∀ f ∈ frags2, f.off + f.bytes.length ≤ L :=
    fun f hf => hbound f (hperm.mem_iff.2 hf)
  have hsymm : ∀ {x y : Frag}, FragDisjoint x y → FragDisjoint y x :=
    fun h => Or.symm h
  have hdisj2 : frags2.Pairwise FragDisjoint :=
    (List.Perm.pairwise_iff hsymm hperm).1 hdisj
  have hsum2 : (frags2.map (fun f => f.bytes.length)).sum = L := by
    rw [← (hperm.map (fun f => f.bytes.length)).sum_eq]
    exact hsum
  have hbuf : st.epochState.certificateFragments.getD (List.replicate L 0)
      = List.replicate L 0 := by rw [hclean]; rfl
  have hbuflen : (List.replicate L 0).length = L := by simp
  have hsumst : st.epochState.certificateFragmentDataRecv
      + (frags.map (fun f => f.bytes.length)).sum = L := by rw [hzero]; simpa using hsum
  have hsumst2 : st.epochState.certificateFragmentDataRecv
      + (frags2.map (fun f => f.bytes.length)).sum = L := by rw [hzero]; simpa using hsum2
  obtain ⟨st1, final1, hrun1, hasm1, hdc1, hes1, hsends1⟩ :=
    deliverFrags_complete ext L frags st (List.replicate L 0)
      hne hpos hlt hbound hbuf hbuflen hsumst
  obtain ⟨st2, final2, hrun2, hasm2, hdc2, hes2, hsends2⟩ :=
    deliverFrags_complete ext L frags2 st (List.replicate L 0)
      hne2 hpos2 hlt2 hbound2 hbuf hbuflen hsumst2
  have hrepb : ∀ f ∈ frags, f.off + f.bytes.length ≤ (List.replicate L 0).length := by
    intro f hf; rw [hbuflen]; exact hbound f hf
  have hrepb2 : ∀ f ∈ frags2, f.off + f.bytes.length ≤ (List.replicate L 0).length := by
    intro f hf; rw [hbuflen]; exact hbound2 f hf
  obtain ⟨hlen1, hchar1⟩ :=
    assembleFrom_spec frags (List.replicate L 0) final1 hrepb hdisj hasm1
  obtain ⟨hlen2, hchar2⟩ :=
    assembleFrom_spec frags2 (List.replicate L 0) final2 hrepb2 hdisj2 hasm2
  have hfeq : final1 = final2 := by
    apply List.ext_getElem (hlen1.trans hlen2.symm)
    intro n h1 h2
    have g1 := hchar1 n
    have g2 := hchar2 n
    rw [fragAt_perm frags frags2 n hperm hdisj] at g1
    have hg : final1.getD n 0 = final2.getD n 0 := g1.trans g2.symm
    rw [List.getD_eq_getElem?_getD, List.getD_eq_getElem?_getD,
      List.getElem?_eq_getElem h1, List.getElem?_eq_getElem h2] at hg
    simpa using hg
  refine ⟨st1, st2, final1, hrun1, hrun2, hdc1, ?_, ?_, ?_, ?_, hsends1, ?_⟩
  · rw [← hfeq] at hdc2
    exact hdc2
  · rw [hes1, hes2, hfeq]
  · rw [hes1]
    unfold certCompleted
    split <;> rfl
  · rw [hes1]
    unfold certCompleted
    split <;> rfl
  · rw [hlen1, hbuflen]

end Autil

namespace Autil

/-- The spec's example fragment at offset 50 with 30 bytes. -/
def fragA : Frag := ⟨5, 50, List.replicate 30 1⟩

/-- The spec's example fragment at offset 0 with 50 bytes. -/
def fragB : Frag := ⟨6, 0, List.replicate 50 2⟩

/-- The socket after the first ClientHello and the supported ServerHello:
state `ExpectingCertificate`, reassembly fields clean. -/
def stSH : Model := (run extD (goodTrace.take 1) st0).getD sock0

/-- C5 witness: the reassembly theorem at the spec's concrete example —
declared total length 80, fragments (offset 50, length 30) and (offset 0,
length 50), delivered in both orders. -/
theorem c5_witness :
    stSH.epochState.certificateFragments = none
    ∧ stSH.epochState.certificateFragmentDataRecv = 0
    ∧ 0 < 80
    ∧ (∀ f ∈ [fragA, fragB], 0 < f.bytes.length)
    ∧ (∀ f ∈ [fragA, fragB], f.bytes.length < 80)
    ∧ (∀ f ∈ [fragA, fragB], f.off + f.bytes.length ≤ 80)
    ∧ List.Pairwise FragDisjoint [fragA, fragB]
    ∧ ([fragA, fragB].map (fun f => f.bytes.length)).sum = 80
    ∧ List.Perm [fragA, fragB] [fragB, fragA]
    ∧ (∃ st1 st2 final,
        deliverFrags extD 80 [fragA, fragB] stSH = some st1
        ∧ deliverFrags extD 80 [fragB, fragA] stSH = some st2
        ∧ st1.deserializedCerts = stSH.deserializedCerts ++ [final]
        ∧ st2.deserializedCerts = stSH.deserializedCerts ++ [final]
        ∧ st1.epochState = st2.epochState
        ∧ st1.epochState.certificateFragments = none
        ∧ st1.epochState.certificateFragmentDataRecv = 0
        ∧ st1.sends = stSH.sends
        ∧ final.length = 80) :=
  ⟨by decide, by decide, by decide, by decide, by decide, by decide, by decide,
    by decide, List.Perm.swap fragB fragA [],
    c5_reassembly extD 80 [fragA, fragB] [fragB, fragA] stSH
      (by decide) (by decide) (by decide) (by decide) (by decide) (by decide)
      (by decide) (by decide) (List.Perm.swap fragB fragA [])⟩

end Autil

namespace Autil

/-- The socket after the entire successful handshake: state
`ExpectingChangeCipherSpec`, certificate stored, supported suite stored. -/
def stFlight : Model := (run extD goodTrace st0).getD sock0

/-- C9 (amended): each state-guarded handler drops a message arriving in a
state wrong for it, leaving everything but the log unchanged —
HelloVerifyRequest and ServerHello whenever the state is not
`ExpectingServerHello`, ServerHelloDone whenever the state is not
`ExpectingServerHelloDone`.  By contrast Certificate is not state-guarded
at all: a certificate with a usable public key advances the state to
`ExpectingServerKeyExchange` from any state whatsoever.  And
ServerKeyExchange is guarded only by the presence of a stored certificate,
not by the handshake state: without one, a field-valid message is dropped
with the "state error" log; with one, it is processed regardless of the
handshake state (the success path runs from an arbitrary state). -/
theorem c9_wrong_state_drop (ext : Ext) (st : Model) (cookie : List Nat)
    (suite : Nat) (ske : ServerKeyExchange) (pk : Nat) :
    (st.epochState.state ≠ HandshakeState.ExpectingServerHello →
      handleHelloVerifyRequest ext cookie st
        = st.pushLog ("Dropping unexpected HelloVerifyRequest handshake message. State("
            ++ st.epochState.state.name ++ ")")
      ∧ handleServerHello suite st
        = st.pushLog ("Dropping unexpected ServerHello handshake message. State("
            ++ st.epochState.state.name ++ ")"))
    ∧ (st.epochState.state ≠ HandshakeState.ExpectingServerHelloDone →
      handleServerHelloDone ext st = some (st.pushLog "invalid state"))
    ∧ (handleCertificate ⟨some pk⟩ st).epochState.state
        = HandshakeState.ExpectingServerKeyExchange
    ∧ (skeFieldsValid ske → st.epochState.serverCertificate = none →
      handleServerKeyExchange ext ske st
        = some (st.pushLog "state error: missing public key"))
    ∧ (skeFieldsValid ske → st.epochState.serverCertificate = some ⟨some pk⟩ →
      skeSignatureValid ext pk ske = true →
      st.epochState.selectedCipherSuite = TLS_ECDHE_RSA_WITH_AES_128_GCM_SHA256 →
      (handleServerKeyExchange ext ske st).map (fun s => s.epochState.state)
        = some HandshakeState.ExpectingServerHelloDone) := by
  refine ⟨?_, ?_, ?_, ?_, ?_⟩
  · intro h1
    constructor <;> simp [handleHelloVerifyRequest, handleServerHello, h1]
  · intro h2
    simp [handleServerHelloDone, h2]
  · simp [handleCertificate]
  · rintro ⟨h1, h2, h3, h4⟩ hnone
    simp [handleServerKeyExchange, h1, h2, h3, h4, hnone]
  · rintro ⟨h1, h2, h3, h4⟩ hcert hsv hsuite
    rw [skeSignatureValid] at hsv
    simp [handleServerKeyExchange, h1, h2, h3, h4, hcert, hsv, hsuite]

/-- C9 witness: the wrong-state theorem applied twice — at the post-flight
socket (state `ExpectingChangeCipherSpec`, certificate stored, supported
suite stored: wrong state for all three guarded messages, and the
ServerKeyExchange with-certificate antecedents all hold), and at the
freshly constructed socket (state `Initializing`, no certificate stored:
the without-certificate antecedent holds). -/
theorem c9_witness :
    stFlight.epochState.state ≠ HandshakeState.ExpectingServerHello
    ∧ stFlight.epochState.state ≠ HandshakeState.ExpectingServerHelloDone
    ∧ skeFieldsValid sampleSKE
    ∧ stFlight.epochState.serverCertificate = some ⟨some 1⟩
    ∧ skeSignatureValid extD 1 sampleSKE = true
    ∧ stFlight.epochState.selectedCipherSuite = TLS_ECDHE_RSA_WITH_AES_128_GCM_SHA256
    ∧ sock0.epochState.serverCertificate = none
    ∧ ((stFlight.epochState.state ≠ HandshakeState.ExpectingServerHello →
        handleHelloVerifyRequest extD [3] stFlight
          = stFlight.pushLog ("Dropping unexpected HelloVerifyRequest handshake message. State("
              ++ stFlight.epochState.state.name ++ ")")
        ∧ handleServerHello 53 stFlight
          = stFlight.pushLog ("Dropping unexpected ServerHello handshake message. State("
              ++ stFlight.epochState.state.name ++ ")"))
      ∧ (stFlight.epochState.state ≠ HandshakeState.ExpectingServerHelloDone →
        handleServerHelloDone extD stFlight = some (stFlight.pushLog "invalid state"))
      ∧ (handleCertificate ⟨some 1⟩ stFlight).epochState.state
          = HandshakeState.ExpectingServerKeyExchange
      ∧ (skeFieldsValid sampleSKE → stFlight.epochState.serverCertificate = none →
        handleServerKeyExchange extD sampleSKE stFlight
          = some (stFlight.pushLog "state error: missing public key"))
      ∧ (skeFieldsValid sampleSKE → stFlight.epochState.serverCertificate = some ⟨some 1⟩ →
        skeSignatureValid extD 1 sampleSKE = true →
        stFlight.epochState.selectedCipherSuite = TLS_ECDHE_RSA_WITH_AES_128_GCM_SHA256 →
        (handleServerKeyExchange extD sampleSKE stFlight).map (fun s => s.epochState.state)
          = some HandshakeState.ExpectingServerHelloDone))
    ∧ ((sock0.epochState.state ≠ HandshakeState.ExpectingServerHello →
        handleHelloVerifyRequest extD [3] sock0
          = sock0.pushLog ("Dropping unexpected HelloVerifyRequest handshake message. State("
              ++ sock0.epochState.state.name ++ ")")
        ∧ handleServerHello 53 sock0
          = sock0.pushLog ("Dropping unexpected ServerHello handshake message. State("
              ++ sock0.epochState.state.name ++ ")"))
      ∧ (sock0.epochState.state ≠ HandshakeState.ExpectingServerHelloDone →
        handleServerHelloDone extD sock0 = some (sock0.pushLog "invalid state"))
      ∧ (handleCertificate ⟨some 1⟩ sock0).epochState.state
          = HandshakeState.ExpectingServerKeyExchange
      ∧ (skeFieldsValid sampleSKE → sock0.epochState.serverCertificate = none →
        handleServerKeyExchange extD sampleSKE sock0
          = some (sock0.pushLog "state error: missing public key"))
      ∧ (skeFieldsValid sampleSKE → sock0.epochState.serverCertificate = some ⟨some 1⟩ →
        skeSignatureValid extD 1 sampleSKE = true →
        sock0.epochState.selectedCipherSuite = TLS_ECDHE_RSA_WITH_AES_128_GCM_SHA256 →
        (handleServerKeyExchange extD sampleSKE sock0).map (fun s => s.epochState.state)
          = some HandshakeState.ExpectingServerHelloDone)) :=
  ⟨by decide, by decide, by decide, by decide, by decide, by decide, by decide,
    c9_wrong_state_drop extD stFlight [3] 53 sampleSKE 1,
    c9_wrong_state_drop extD sock0 [3] 53 sampleSKE 1⟩

/-- C9 counterexample: a full Certificate delivered to the freshly
constructed socket (state `Initializing`, far outside
`ExpectingCertificate`) advances the state machine to
`ExpectingServerKeyExchange`; and a valid ServerKeyExchange delivered to
the post-flight socket (state `ExpectingChangeCipherSpec`, outside
`ExpectingServerKeyExchange`, certificate stored) moves the state to
`ExpectingServerHelloDone`.  Neither message is logged-and-dropped with the
state machine unchanged, refuting the claim for both message types it
singles out. -/
theorem c9_counterexample :
    sock0.epochState.state = HandshakeState.Initializing
    ∧ (handleHandshake extD ⟨0, InBody.certificate 0 10 certBytes⟩ sock0).map
        (fun s => s.epochState.state) = some HandshakeState.ExpectingServerKeyExchange
    ∧ stFlight.epochState.state = HandshakeState.ExpectingChangeCipherSpec
    ∧ (handleHandshake extD ⟨9, InBody.serverKeyExchange sampleSKE⟩ stFlight).map
        (fun s => s.epochState.state) = some HandshakeState.ExpectingServerHelloDone := by
  refine ⟨by decide, by decide, by decide, by decide⟩

end Autil
